import Mathlib

/-!
Verification of the FastAPI device-gateway facade in
`example/fastapi_tuya_api.py` (repository tuya-connector-python).

The facade endpoints (`list_devices`, `get_device`, `send_commands`,
`get_logs`, `health`, `_init_openapi`) are embedded as pure Lean functions.
The vendor SDK client (`TuyaOpenAPI.get` / `TuyaOpenAPI.post` / `connect`)
is not part of the example sources; following the spec it is an opaque
collaborator, modelled as an arbitrary function from requests to outcomes
(a decoded response, Python `None`, or a raised exception).  Each endpoint
returns the list of downstream calls it issued (its trace) together with
its result, so that call-counting properties can be stated.
-/

/-- A decoded JSON-like response body, standing for the Python objects the
adapter returns (`dict`, `list`, scalars). -/
inductive JsonValue where
  | null
  | bool (b : Bool)
  | num (n : Int)
  | str (s : String)
  | arr (elems : List JsonValue)
  | obj (fields : List (String × JsonValue))

/-- Outcome of one adapter call: it returns a value (`Option JsonValue`,
where `none` is Python `None`) or raises an exception whose `str` is `msg`. -/
inductive AdapterResult where
  | ok (resp : Option JsonValue)
  | exn (msg : String)

/-- `true` iff the adapter call returned (did not raise). -/
def AdapterResult.isOk : AdapterResult → Bool
  | .ok _ => true
  | .exn _ => false

/-- Modelled from the spec: the Cloud Client Adapter capability interface
`\x7bget(path) -> Result; post(path, body) -> Result\x7d` of the vendor
SDK (`tuya_connector.TuyaOpenAPI`), whose source is outside `src/`.
An `Adapter` value fixes one possible behaviour of the global `tuya`
session object. -/
structure Adapter where
  get : String → AdapterResult
  post : String → JsonValue → AdapterResult

/-- One downstream call issued by the facade through the adapter. -/
inductive CallEvent where
  | getCall (path : String)
  | postCall (path : String) (body : JsonValue)

/-- Embeds `fastapi.HTTPException(status_code=..., detail=...)`. -/
structure HTTPException where
  status_code : Nat
  detail : String
deriving DecidableEq

/-- Embeds the pydantic model `CommandItem` (`code: str`, `value: Any`). -/
structure CommandItem where
  code : String
  value : JsonValue

/-- Embeds the pydantic model `CommandsRequest`. -/
structure CommandsRequest where
  device_ids : List String
  commands : List CommandItem

/-- Python truthiness of the `Optional[str]` query parameter `ids`:
`if ids:` is taken iff `ids` is present and not the empty string. -/
def truthy : Option String → Bool
  | none => false
  | some s => s ≠ ""

/-- Python whitespace as used by `str.strip()`:
space, tab, newline, carriage return, vertical tab, form feed. -/
def pyIsSpace (c : Char) : Bool :=
  c = ' ' || c = '\t' || c = '\n' || c = '\r' || c = '\x0b' || c = '\x0c'

/-- Embeds Python `s.strip()`: drop leading and trailing whitespace. -/
def pyStrip (s : String) : String :=
  String.mk (((s.data.dropWhile pyIsSpace).reverse.dropWhile pyIsSpace).reverse)

/-- Splitting a character list at every comma; the empty list yields one
empty segment, matching Python `"".split(",") == [""]`. -/
def splitCommaChars : List Char → List (List Char)
  | [] => [[]]
  | c :: rest =>
    let r := splitCommaChars rest
    if c = ',' then
      [] :: r
    else
      match r with
      | [] => [[c]]
      | t :: ts => (c :: t) :: ts

/-- Embeds Python `s.split(",")`. -/
def pySplitComma (s : String) : List String :=
  (splitCommaChars s.data).map String.mk

/-- Embeds line 68 / line 127:
`[i.strip() for i in ids.split(",") if i.strip()]`. -/
def parseIds (ids : String) : List String :=
  ((pySplitComma ids).map pyStrip).filter (fun t => t ≠ "")

/-- Embeds the Python dict assignment `results[did] = resp`: an existing
key is updated in place, a new key is appended. -/
def dictInsert {α : Type} (m : List (String × α)) (k : String) (v : α) :
    List (String × α) :=
  if m.any (fun p => p.1 = k) then
    m.map (fun p => if p.1 = k then (k, v) else p)
  else
    m ++ [(k, v)]

/-- The path `f"/v1.0/devices/{did}"` (braces elided; built by append). -/
def devicePath (did : String) : String := "/v1.0/devices/" ++ did

/-- The path of `get_logs`: device path with a `/logs` suffix. -/
def logsPath (did : String) : String := "/v1.0/devices/" ++ did ++ "/logs"

/-- The path of `send_commands`: device path with a `/commands` suffix. -/
def commandsPath (did : String) : String := "/v1.0/devices/" ++ did ++ "/commands"

/-- The unfiltered platform-wide listing path of `list_devices`. -/
def listPath : String := "/v1.0/iot-03/devices"

/-- Embeds the per-id GET loops of `list_devices` (lines 70-72) and
`get_logs` (lines 129-132): sequentially issue `tuya.get (mkPath did)` for
each id, storing each response (possibly `None`) into the dict; a raised
exception aborts the loop. Returns the trace of issued calls and either
the finished dict or the exception message. -/
def getLoop (tuya : Adapter) (mkPath : String → String) :
    List String → List (String × Option JsonValue) →
    List CallEvent × Except String (List (String × Option JsonValue))
  | [], acc => ([], Except.ok acc)
  | did :: rest, acc =>
    match tuya.get (mkPath did) with
    | AdapterResult.ok resp =>
      let r := getLoop tuya mkPath rest (dictInsert acc did resp)
      (CallEvent.getCall (mkPath did) :: r.1, r.2)
    | AdapterResult.exn msg =>
      ([CallEvent.getCall (mkPath did)], Except.error msg)

/-- Embeds the per-id POST loop of `send_commands` (lines 109-111). -/
def postLoop (tuya : Adapter) (body : JsonValue) :
    List String → List (String × Option JsonValue) →
    List CallEvent × Except String (List (String × Option JsonValue))
  | [], acc => ([], Except.ok acc)
  | did :: rest, acc =>
    match tuya.post (commandsPath did) body with
    | AdapterResult.ok resp =>
      let r := postLoop tuya body rest (dictInsert acc did resp)
      (CallEvent.postCall (commandsPath did) body :: r.1, r.2)
    | AdapterResult.exn msg =>
      ([CallEvent.postCall (commandsPath did) body], Except.error msg)

/-- Result of `GET /devices`: either the per-id mapping or the raw
unfiltered listing body. -/
inductive DevicesResult where
  | mapping (m : List (String × Option JsonValue))
  | raw (v : JsonValue)

/-- Embeds `list_devices` (lines 60-83). The `ids` branch builds the
per-id mapping; the fallback issues one GET on the listing path, raising
502 on `None` and re-raising it past the catch-all; any other exception
becomes a 500 carrying `str(exc)`. -/
def list_devices (tuya : Adapter) (ids : Option String) :
    List CallEvent × Except HTTPException DevicesResult :=
  if truthy ids then
    match getLoop tuya devicePath (parseIds (ids.getD "")) [] with
    | (tr, Except.ok m) => (tr, Except.ok (DevicesResult.mapping m))
    | (tr, Except.error msg) => (tr, Except.error ⟨500, msg⟩)
  else
    match tuya.get listPath with
    | AdapterResult.ok none =>
      ([CallEvent.getCall listPath], Except.error ⟨502, "No response from Tuya API"⟩)
    | AdapterResult.ok (some v) =>
      ([CallEvent.getCall listPath], Except.ok (DevicesResult.raw v))
    | AdapterResult.exn msg =>
      ([CallEvent.getCall listPath], Except.error ⟨500, msg⟩)

/-- Embeds `get_device` (lines 86-97). -/
def get_device (tuya : Adapter) (device_id : String) :
    List CallEvent × Except HTTPException JsonValue :=
  match tuya.get (devicePath device_id) with
  | AdapterResult.ok none =>
    ([CallEvent.getCall (devicePath device_id)],
     Except.error ⟨502, "No response from Tuya API"⟩)
  | AdapterResult.ok (some v) =>
    ([CallEvent.getCall (devicePath device_id)], Except.ok v)
  | AdapterResult.exn msg =>
    ([CallEvent.getCall (devicePath device_id)], Except.error ⟨500, msg⟩)

/-- Embeds `c.dict()` on a `CommandItem`: the dict with the `code` and
`value` fields, unmutated. -/
def CommandItem.dict (c : CommandItem) : JsonValue :=
  JsonValue.obj [("code", JsonValue.str c.code), ("value", c.value)]

/-- Embeds line 107: the shared body
`\x7b"commands": [c.dict() for c in payload.commands]\x7d`. -/
def commandsPayload (cmds : List CommandItem) : JsonValue :=
  JsonValue.obj [("commands", JsonValue.arr (cmds.map CommandItem.dict))]

/-- Embeds `send_commands` (lines 100-114): one shared payload, one POST
per device id in order; any exception aborts the whole call with a 500
carrying `str(exc)`. -/
def send_commands (tuya : Adapter) (payload : CommandsRequest) :
    List CallEvent × Except HTTPException (List (String × Option JsonValue)) :=
  match postLoop tuya (commandsPayload payload.commands) payload.device_ids [] with
  | (tr, Except.ok m) => (tr, Except.ok m)
  | (tr, Except.error msg) => (tr, Except.error ⟨500, msg⟩)

/-- Embeds `get_logs` (lines 117-137): falsy `ids` raises 400 before any
adapter call; otherwise one GET per parsed id on the logs path. -/
def get_logs (tuya : Adapter) (ids : Option String) :
    List CallEvent × Except HTTPException (List (String × Option JsonValue)) :=
  if truthy ids then
    match getLoop tuya logsPath (parseIds (ids.getD "")) [] with
    | (tr, Except.ok m) => (tr, Except.ok m)
    | (tr, Except.error msg) => (tr, Except.error ⟨500, msg⟩)
  else
    ([], Except.error ⟨400, "Query parameter `ids` is required"⟩)

/-- Embeds `health` (lines 55-57): the handler ignores the adapter session
entirely and returns the literal `\x7bstatus: "ok"\x7d`. It takes the
global session state as an argument only to express that independence. -/
def health (_tuya : Adapter) : List (String × String) :=
  [("status", "ok")]

/-- Embeds the constructed `TuyaOpenAPI(API_ENDPOINT, ACCESS_ID, ACCESS_KEY)`
value (its behaviour lives in `Adapter`; only construction matters here). -/
structure TuyaOpenAPI where
  endpoint : String
  access_id : String
  access_key : String
deriving DecidableEq

/-- Modelled from the spec: `connect()` "may fail with AuthenticationError
(bad credentials) or ConnectivityError (network/timeout)"; the SDK source
is outside `src/`, so its outcome is abstracted as success or a raised
exception with message `msg`. -/
inductive ConnectOutcome where
  | success
  | exnRaised (msg : String)

/-- `openapi.connect()` under a fixed outcome, as an `Except`. -/
def connectResult (outcome : ConnectOutcome) : Except String Unit :=
  match outcome with
  | ConnectOutcome.success => Except.ok ()
  | ConnectOutcome.exnRaised msg => Except.error msg

/-- Embeds `_init_openapi` (lines 42-49): construct the client, try
`connect()`, swallow any exception (`except Exception: pass`), return the
client. `Except.error` would be an escaping exception. -/
def init_openapi (endpoint access_id access_key : String)
    (outcome : ConnectOutcome) : Except String TuyaOpenAPI :=
  let openapi : TuyaOpenAPI := ⟨endpoint, access_id, access_key⟩
  match connectResult outcome with
  | Except.ok _ => Except.ok openapi
  | Except.error _ => Except.ok openapi

/-! ### Concrete adapter behaviours used by witnesses and counterexamples -/

/-- An adapter whose every call returns Python `None`. -/
def constNoneAdapter : Adapter :=
  ⟨fun _ => AdapterResult.ok none, fun _ _ => AdapterResult.ok none⟩

/-- An adapter whose every call raises an exception with message `"kaput"`. -/
def constExnAdapter : Adapter :=
  ⟨fun _ => AdapterResult.exn "kaput", fun _ _ => AdapterResult.exn "kaput"⟩

/-- An adapter whose every GET returns the empty (but non-`None`) object. -/
def emptyObjAdapter : Adapter :=
  ⟨fun _ => AdapterResult.ok (some (JsonValue.obj [])), fun _ _ => AdapterResult.ok none⟩

/-- An adapter whose POST to device `"B"` raises `"boom"` while every other
call returns `None`. -/
def failBAdapter : Adapter :=
  ⟨fun _ => AdapterResult.ok none,
   fun p _ => if p = commandsPath "B" then AdapterResult.exn "boom" else AdapterResult.ok none⟩

/-! ### Helper lemmas about the dict and the per-id loops -/

theorem AdapterResult.isOk_iff (a : AdapterResult) :
    a.isOk = true ↔ ∃ resp, a = AdapterResult.ok resp := by
  cases a <;> simp [AdapterResult.isOk]

theorem dictInsert_keys_update {α : Type} (m : List (String × α)) (k : String) (v : α) :
    (m.map (fun p => if p.1 = k then (k, v) else p)).map Prod.fst = m.map Prod.fst := by
  induction m with
  | nil => rfl
  | cons p rest ih => by_cases h : p.1 = k <;> simp [h, ih]

theorem dictInsert_keys_mem {α : Type} (m : List (String × α)) (k x : String) (v : α) :
    x ∈ (dictInsert m k v).map Prod.fst ↔ (x = k ∨ x ∈ m.map Prod.fst) := by
  unfold dictInsert
  by_cases h : m.any (fun p => p.1 = k) = true
  · rw [if_pos h, dictInsert_keys_update]
    simp only [List.any_eq_true, decide_eq_true_eq] at h
    obtain ⟨p, hp, hpk⟩ := h
    have hk : k ∈ m.map Prod.fst := List.mem_map.mpr ⟨p, hp, hpk⟩
    constructor
    · exact fun hx => Or.inr hx
    · rintro (rfl | hx)
      · exact hk
      · exact hx
  · rw [if_neg h]
    simp [or_comm]

theorem getLoop_ok_of_isOk (tuya : Adapter) (mkPath : String → String) :
    ∀ (dids : List String) (acc : List (String × Option JsonValue)),
    (∀ d ∈ dids, (tuya.get (mkPath d)).isOk = true) →
    ∃ m, getLoop tuya mkPath dids acc =
      (dids.map (fun d => CallEvent.getCall (mkPath d)), Except.ok m) ∧
      ∀ x, x ∈ m.map Prod.fst ↔ (x ∈ dids ∨ x ∈ acc.map Prod.fst) := by
  intro dids
  induction dids with
  | nil =>
    intro acc _
    exact ⟨acc, rfl, fun x => by simp⟩
  | cons d rest ih =>
    intro acc hok
    obtain ⟨resp, hresp⟩ := (AdapterResult.isOk_iff _).mp (hok d (by simp))
    obtain ⟨m, hm, hkeys⟩ := ih (dictInsert acc d resp)
      (fun d2 h2 => hok d2 (by simp [h2]))
    refine ⟨m, ?_, ?_⟩
    · simp [getLoop, hresp, hm]
    · intro x
      rw [hkeys x, dictInsert_keys_mem]
      simp only [List.mem_cons]
      tauto

theorem getLoop_error_get (tuya : Adapter) (mkPath : String → String) :
    ∀ (dids : List String) (acc : List (String × Option JsonValue)) (msg : String),
    (getLoop tuya mkPath dids acc).2 = Except.error msg →
    ∃ d, tuya.get (mkPath d) = AdapterResult.exn msg := by
  intro dids
  induction dids with
  | nil =>
    intro acc msg h
    exact absurd h (by simp [getLoop])
  | cons d rest ih =>
    intro acc msg h
    cases hres : tuya.get (mkPath d) with
    | ok resp =>
      simp only [getLoop, hres] at h
      exact ih _ msg h
    | exn m2 =>
      simp only [getLoop, hres] at h
      obtain rfl : m2 = msg := by
        simpa using h
      exact ⟨d, hres⟩

theorem postLoop_trace_mem (tuya : Adapter) (body : JsonValue) :
    ∀ (dids : List String) (acc : List (String × Option JsonValue)) (ev : CallEvent),
    ev ∈ (postLoop tuya body dids acc).1 →
    ∃ did, did ∈ dids ∧ ev = CallEvent.postCall (commandsPath did) body := by
  intro dids
  induction dids with
  | nil =>
    intro acc ev h
    exact absurd h (by simp [postLoop])
  | cons d rest ih =>
    intro acc ev h
    cases hres : tuya.post (commandsPath d) body with
    | ok resp =>
      simp only [postLoop, hres] at h
      rcases List.mem_cons.mp h with h1 | h2
      · exact ⟨d, by simp, h1⟩
      · obtain ⟨did, hdid, hev⟩ := ih _ ev h2
        exact ⟨did, by simp [hdid], hev⟩
    | exn msg =>
      simp only [postLoop, hres] at h
      rcases List.mem_cons.mp h with h1 | h2
      · exact ⟨d, by simp, h1⟩
      · exact absurd h2 (by simp)

theorem dictInsert_mem_self {α : Type} (m : List (String × α)) (k : String) (v : α) :
    (k, v) ∈ dictInsert m k v := by
  unfold dictInsert
  by_cases h : m.any (fun p => p.1 = k) = true
  · rw [if_pos h]
    simp only [List.any_eq_true, decide_eq_true_eq] at h
    obtain ⟨p, hp, hpk⟩ := h
    exact List.mem_map.mpr ⟨p, hp, by simp [hpk]⟩
  · rw [if_neg h]
    simp

theorem dictInsert_mem_of_mem {α : Type} {m : List (String × α)} {d k : String} {v : α}
    (hv : (d, v) ∈ m) : (d, v) ∈ dictInsert m k v := by
  unfold dictInsert
  by_cases h : m.any (fun p => p.1 = k) = true
  · rw [if_pos h]
    by_cases hdk : d = k
    · subst hdk
      exact List.mem_map.mpr ⟨(d, v), hv, by simp⟩
    · exact List.mem_map.mpr ⟨(d, v), hv, by simp [hdk]⟩
  · rw [if_neg h]
    simp [hv]

theorem dictInsert_values_none (m : List (String × Option JsonValue)) (k : String)
    (hm : ∀ q ∈ m, q.2 = (none : Option JsonValue)) :
    ∀ q ∈ dictInsert m k none, q.2 = (none : Option JsonValue) := by
  intro q hq
  unfold dictInsert at hq
  by_cases h : m.any (fun p => p.1 = k) = true
  · rw [if_pos h] at hq
    obtain ⟨p, hp, he⟩ := List.mem_map.mp hq
    by_cases hpk : p.1 = k
    · rw [← he]
      simp [hpk]
    · rw [← he]
      simp only [hpk, if_false]
      exact hm p hp
  · rw [if_neg h] at hq
    rcases List.mem_append.mp hq with h1 | h2
    · exact hm q h1
    · simp only [List.mem_singleton] at h2
      simp [h2]

theorem getLoop_none_ok (tuya : Adapter) (mkPath : String → String)
    (hnone : ∀ p, tuya.get p = AdapterResult.ok none) :
    ∀ (dids : List String) (acc : List (String × Option JsonValue)),
    (∀ q ∈ acc, q.2 = (none : Option JsonValue)) →
    ∃ m, (getLoop tuya mkPath dids acc).2 = Except.ok m ∧
      (∀ q ∈ acc, q ∈ m) ∧
      ∀ d ∈ dids, (d, (none : Option JsonValue)) ∈ m := by
  intro dids
  induction dids with
  | nil =>
    intro acc _
    exact ⟨acc, rfl, fun q hq => hq, by simp⟩
  | cons d rest ih =>
    intro acc hacc
    obtain ⟨m, hm, hsub, hmem⟩ := ih (dictInsert acc d none)
      (dictInsert_values_none acc d hacc)
    refine ⟨m, ?_, ?_, ?_⟩
    · simp [getLoop, hnone (mkPath d), hm]
    · rintro ⟨a, b⟩ hq
      have hb : b = none := hacc (a, b) hq
      subst hb
      exact hsub (a, none) (dictInsert_mem_of_mem hq)
    · intro d2 hd2
      rcases List.mem_cons.mp hd2 with rfl | h2
      · exact hsub _ (dictInsert_mem_self acc d2 none)
      · exact hmem d2 h2

/-! ### Claim theorems -/

/-- C6: for every outcome of `connect()` at startup, including `connect()`
raising any exception, `_init_openapi` does not fail: it always returns the
constructed adapter, swallowing the connect failure. -/
theorem init_openapi_never_fails (endpoint access_id access_key : String)
    (outcome : ConnectOutcome) :
    init_openapi endpoint access_id access_key outcome =
      Except.ok ⟨endpoint, access_id, access_key⟩ := by
  cases outcome <;> rfl

/-- C8: for every state of the adapter session, `/health` returns
`\x7bstatus: "ok"\x7d`; the handler reads no adapter or session state. -/
theorem health_always_ok (tuya : Adapter) : health tuya = [("status", "ok")] := rfl

/-- C10: for every `ids` string that is non-empty (truthy) but whose
comma-separated tokens are all blank after trimming, `list_devices` returns
the empty mapping and issues no downstream call at all. -/
theorem list_devices_all_blank (tuya : Adapter) (s : String) (hs : s ≠ "")
    (hblank : parseIds s = []) :
    list_devices tuya (some s) = ([], Except.ok (DevicesResult.mapping [])) := by
  simp [list_devices, truthy, hs, hblank, getLoop]

/-- Witness for C10 at `ids = ","` (both tokens blank): the result is the
empty mapping with an empty trace. -/
theorem list_devices_all_blank_witness :
    list_devices constNoneAdapter (some ",") = ([], Except.ok (DevicesResult.mapping [])) :=
  list_devices_all_blank constNoneAdapter "," (by decide) (by decide)

/-- C2 counterexample: a whitespace-only `ids` (`" "`) is truthy in Python,
so `get_logs` does not raise the 400; all tokens strip to blank, so it
returns the empty mapping with no downstream call — not a `BadRequest`. -/
theorem get_logs_blank_ids_no_400 :
    get_logs constNoneAdapter (some " ") = ([], Except.ok []) := rfl

/-- C2 (amended): for `ids` omitted or the empty string, `get_logs` fails
with a 400 whose detail says `ids` is required, and no downstream adapter
call is made. -/
theorem get_logs_requires_ids (tuya : Adapter) (ids : Option String)
    (h : ids = none ∨ ids = some "") :
    get_logs tuya ids =
      ([], Except.error ⟨400, "Query parameter `ids` is required"⟩) := by
  rcases h with rfl | rfl <;> rfl

/-- Witness for the amended C2 at `ids` omitted. -/
theorem get_logs_requires_ids_witness :
    get_logs constNoneAdapter none =
      ([], Except.error ⟨400, "Query parameter `ids` is required"⟩) :=
  get_logs_requires_ids constNoneAdapter none (Or.inl rfl)

/-- C3 counterexample: an empty-but-not-`None` listing body (the empty
object) is returned unmodified with no 502: the code tests `resp is None`
only, not emptiness. -/
theorem list_devices_empty_body_no_502 :
    list_devices emptyObjAdapter none =
      ([CallEvent.getCall listPath], Except.ok (DevicesResult.raw (JsonValue.obj []))) := rfl

/-- C3 (amended): with `ids` absent, exactly one downstream GET is issued
against the platform-wide listing path; a `None` body fails with the
502-equivalent, and any non-`None` body (empty included) is returned
unmodified. -/
theorem list_devices_unfiltered (tuya : Adapter) :
    (tuya.get listPath = AdapterResult.ok none →
      list_devices tuya none = ([CallEvent.getCall listPath],
        Except.error ⟨502, "No response from Tuya API"⟩)) ∧
    (∀ v, tuya.get listPath = AdapterResult.ok (some v) →
      list_devices tuya none =
        ([CallEvent.getCall listPath], Except.ok (DevicesResult.raw v))) := by
  constructor
  · intro h
    simp [list_devices, truthy, h]
  · intro v h
    simp [list_devices, truthy, h]

/-- Witness for the amended C3: a `None` listing body yields the 502 after
exactly one GET on the listing path. -/
theorem list_devices_unfiltered_witness :
    list_devices constNoneAdapter none =
      ([CallEvent.getCall listPath], Except.error ⟨502, "No response from Tuya API"⟩) :=
  (list_devices_unfiltered constNoneAdapter).1 rfl

/-- The result of `list_devices` on a truthy `ids`, expressed through the
result of its per-id loop. -/
theorem list_devices_some_snd (tuya : Adapter) (s : String) (hs : s ≠ "") :
    (list_devices tuya (some s)).2 =
      (match (getLoop tuya devicePath (parseIds s) []).2 with
       | Except.ok m => Except.ok (DevicesResult.mapping m)
       | Except.error msg => Except.error (⟨500, msg⟩ : HTTPException)) := by
  have ht : truthy (some s) = true := by simp [truthy, hs]
  rw [list_devices, if_pos ht]
  simp only [Option.getD_some]
  rcases hres : getLoop tuya devicePath (parseIds s) [] with ⟨tr, r⟩
  cases r <;> rfl

/-- The result of `get_logs` on a truthy `ids`, expressed through the
result of its per-id loop. -/
theorem get_logs_some_snd (tuya : Adapter) (s : String) (hs : s ≠ "") :
    (get_logs tuya (some s)).2 =
      (match (getLoop tuya logsPath (parseIds s) []).2 with
       | Except.ok m => Except.ok m
       | Except.error msg => Except.error (⟨500, msg⟩ : HTTPException)) := by
  have ht : truthy (some s) = true := by simp [truthy, hs]
  rw [get_logs, if_pos ht]
  simp only [Option.getD_some]
  rcases hres : getLoop tuya logsPath (parseIds s) [] with ⟨tr, r⟩
  cases r <;> rfl

/-- C4: for every non-empty `ids` input to `list_devices`, when every
per-id downstream GET succeeds, the key set of the returned mapping equals
exactly the set of trimmed identifiers supplied, blank segments dropped. -/
theorem list_devices_keyset (tuya : Adapter) (s : String) (hs : s ≠ "")
    (hok : ∀ d ∈ parseIds s, (tuya.get (devicePath d)).isOk = true) :
    ∃ m, (list_devices tuya (some s)).2 = Except.ok (DevicesResult.mapping m) ∧
      (m.map Prod.fst).toFinset = (parseIds s).toFinset := by
  obtain ⟨m, hm, hkeys⟩ := getLoop_ok_of_isOk tuya devicePath (parseIds s) [] hok
  have hm2 : (getLoop tuya devicePath (parseIds s) []).2 = Except.ok m := by
    rw [hm]
  refine ⟨m, ?_, ?_⟩
  · rw [list_devices_some_snd tuya s hs, hm2]
  · ext x
    simp only [List.mem_toFinset]
    rw [hkeys x]
    simp

/-- Witness for C4 at `ids = "A, B"` against an all-`None` adapter. -/
theorem list_devices_keyset_witness :
    ∃ m, (list_devices constNoneAdapter (some "A, B")).2 =
        Except.ok (DevicesResult.mapping m) ∧
      (m.map Prod.fst).toFinset = (parseIds "A, B").toFinset :=
  list_devices_keyset constNoneAdapter "A, B" (by decide) (fun d _ => rfl)

/-- C9: in the per-id paths of `list_devices` and `get_logs`, a `None`
downstream response is not an error: it is stored as that id's entry in
the returned mapping and no 502 is raised. -/
theorem none_responses_kept (tuya : Adapter) (s : String) (hs : s ≠ "")
    (hnone : ∀ p, tuya.get p = AdapterResult.ok none) :
    (∃ m, (list_devices tuya (some s)).2 = Except.ok (DevicesResult.mapping m) ∧
      ∀ d ∈ parseIds s, (d, (none : Option JsonValue)) ∈ m) ∧
    (∃ m, (get_logs tuya (some s)).2 = Except.ok m ∧
      ∀ d ∈ parseIds s, (d, (none : Option JsonValue)) ∈ m) := by
  constructor
  · obtain ⟨m, hm, _, hmem⟩ :=
      getLoop_none_ok tuya devicePath hnone (parseIds s) [] (by simp)
    refine ⟨m, ?_, hmem⟩
    rw [list_devices_some_snd tuya s hs, hm]
  · obtain ⟨m, hm, _, hmem⟩ :=
      getLoop_none_ok tuya logsPath hnone (parseIds s) [] (by simp)
    refine ⟨m, ?_, hmem⟩
    rw [get_logs_some_snd tuya s hs, hm]

/-- Witness for C9 at `ids = "A"` against an all-`None` adapter. -/
theorem none_responses_kept_witness :
    (∃ m, (list_devices constNoneAdapter (some "A")).2 =
        Except.ok (DevicesResult.mapping m) ∧
      ∀ d ∈ parseIds "A", (d, (none : Option JsonValue)) ∈ m) ∧
    (∃ m, (get_logs constNoneAdapter (some "A")).2 = Except.ok m ∧
      ∀ d ∈ parseIds "A", (d, (none : Option JsonValue)) ∈ m) :=
  none_responses_kept constNoneAdapter "A" (by decide) (fun p => rfl)

/-- C1: Send Commands with `device_ids = ["A", "B"]` and a non-empty
commands list issues exactly one downstream POST per device id (two in
total), each carrying the identical commands payload; and if the POST for
`"B"` raises, the whole call fails with a 500-equivalent and no partial
mapping (one containing only `"A"`) is returned. -/
theorem send_commands_two_ids (tuya : Adapter) (cmds : List CommandItem)
    (_hne : cmds ≠ []) :
    (∀ rA rB,
      tuya.post (commandsPath "A") (commandsPayload cmds) = AdapterResult.ok rA →
      tuya.post (commandsPath "B") (commandsPayload cmds) = AdapterResult.ok rB →
      send_commands tuya ⟨["A", "B"], cmds⟩ =
        ([CallEvent.postCall (commandsPath "A") (commandsPayload cmds),
          CallEvent.postCall (commandsPath "B") (commandsPayload cmds)],
         Except.ok [("A", rA), ("B", rB)])) ∧
    (∀ rA msg,
      tuya.post (commandsPath "A") (commandsPayload cmds) = AdapterResult.ok rA →
      tuya.post (commandsPath "B") (commandsPayload cmds) = AdapterResult.exn msg →
      send_commands tuya ⟨["A", "B"], cmds⟩ =
        ([CallEvent.postCall (commandsPath "A") (commandsPayload cmds),
          CallEvent.postCall (commandsPath "B") (commandsPayload cmds)],
         Except.error ⟨500, msg⟩)) := by
  constructor
  · intro rA rB hA hB
    simp [send_commands, postLoop, hA, hB, dictInsert]
  · intro rA msg hA hB
    simp [send_commands, postLoop, hA, hB, dictInsert]

/-- Witness for C1: with a single `switch` command, the adapter failing on
`"B"` yields the overall 500 after both POSTs were issued with the shared
payload. -/
theorem send_commands_two_ids_witness :
    send_commands failBAdapter
        ⟨["A", "B"], [⟨"switch", JsonValue.bool true⟩]⟩ =
      ([CallEvent.postCall (commandsPath "A")
          (commandsPayload [⟨"switch", JsonValue.bool true⟩]),
        CallEvent.postCall (commandsPath "B")
          (commandsPayload [⟨"switch", JsonValue.bool true⟩])],
       Except.error ⟨500, "boom"⟩) :=
  (send_commands_two_ids failBAdapter [⟨"switch", JsonValue.bool true⟩]
      (by simp)).2 none "boom" rfl rfl

/-- The trace of `send_commands` is the trace of its POST loop. -/
theorem send_commands_fst (tuya : Adapter) (payload : CommandsRequest) :
    (send_commands tuya payload).1 =
      (postLoop tuya (commandsPayload payload.commands) payload.device_ids []).1 := by
  rcases h : postLoop tuya (commandsPayload payload.commands) payload.device_ids []
    with ⟨tr, r⟩
  cases r <;> simp [send_commands, h]

/-- C5: every `\x7bcode, value\x7d` command item submitted to Send
Commands appears unmutated (same code string, same value) in the commands
payload sent downstream for every target device; the facade performs no
reshaping. -/
theorem send_commands_roundtrip (tuya : Adapter) (payload : CommandsRequest)
    (ev : CallEvent) (hev : ev ∈ (send_commands tuya payload).1) :
    ∃ did, did ∈ payload.device_ids ∧
      ev = CallEvent.postCall (commandsPath did)
        (JsonValue.obj [("commands", JsonValue.arr (payload.commands.map (fun c =>
          JsonValue.obj [("code", JsonValue.str c.code), ("value", c.value)])))]) := by
  rw [send_commands_fst] at hev
  obtain ⟨did, hdid, hev2⟩ := postLoop_trace_mem tuya
    (commandsPayload payload.commands) payload.device_ids [] ev hev
  exact ⟨did, hdid, hev2⟩

/-- Witness for C5: the one POST issued for device `"A"` carries the
submitted `switch` command verbatim. -/
theorem send_commands_roundtrip_witness :
    ∃ did, did ∈ ["A"] ∧
      CallEvent.postCall (commandsPath "A")
          (commandsPayload [⟨"switch", JsonValue.bool true⟩]) =
        CallEvent.postCall (commandsPath did)
          (JsonValue.obj [("commands", JsonValue.arr
            (([⟨"switch", JsonValue.bool true⟩] : List CommandItem).map (fun c =>
              JsonValue.obj [("code", JsonValue.str c.code), ("value", c.value)])))]) :=
  send_commands_roundtrip constNoneAdapter ⟨["A"], [⟨"switch", JsonValue.bool true⟩]⟩
    (CallEvent.postCall (commandsPath "A")
      (commandsPayload [⟨"switch", JsonValue.bool true⟩]))
    (List.Mem.head _)

/-- C7: inside `get_device` and `list_devices`, an adapter exception that
is not a facade-level HTTP error becomes a 500 whose detail is the
exception message verbatim, while the facade-level 502 propagates
unmodified: every error `list_devices` returns is either that exact 502 or
a 500 whose detail is the message of an exception some adapter GET raised. -/
theorem facade_error_mapping (tuya : Adapter) :
    (∀ did msg, tuya.get (devicePath did) = AdapterResult.exn msg →
      (get_device tuya did).2 = Except.error ⟨500, msg⟩) ∧
    (∀ did, tuya.get (devicePath did) = AdapterResult.ok none →
      (get_device tuya did).2 = Except.error ⟨502, "No response from Tuya API"⟩) ∧
    (∀ ids e, (list_devices tuya ids).2 = Except.error e →
      e = ⟨502, "No response from Tuya API"⟩ ∨
      (e.status_code = 500 ∧ ∃ p, tuya.get p = AdapterResult.exn e.detail)) := by
  refine ⟨?_, ?_, ?_⟩
  · intro did msg h
    simp [get_device, h]
  · intro did h
    simp [get_device, h]
  · intro ids e h
    by_cases ht : truthy ids = true
    · rw [list_devices, if_pos ht] at h
      rcases hres : getLoop tuya devicePath (parseIds (ids.getD "")) [] with ⟨tr, r⟩
      rw [hres] at h
      cases r with
      | ok m => simp at h
      | error msg =>
        simp only [Except.error.injEq] at h
        obtain ⟨d, hd⟩ := getLoop_error_get tuya devicePath
          (parseIds (ids.getD "")) [] msg (by rw [hres])
        subst h
        exact Or.inr ⟨rfl, devicePath d, hd⟩
    · rw [list_devices, if_neg ht] at h
      cases hres : tuya.get listPath with
      | ok resp =>
        cases resp with
        | none =>
          rw [hres] at h
          simp only [Except.error.injEq] at h
          subst h
          exact Or.inl rfl
        | some v =>
          rw [hres] at h
          simp at h
      | exn msg =>
        rw [hres] at h
        simp only [Except.error.injEq] at h
        subst h
        exact Or.inr ⟨rfl, listPath, hres⟩

/-- Witness for C7: an adapter that always raises `"kaput"` makes
`get_device` fail with the 500 carrying `"kaput"` verbatim. -/
theorem facade_error_mapping_witness :
    (get_device constExnAdapter "A").2 = Except.error ⟨500, "kaput"⟩ :=
  (facade_error_mapping constExnAdapter).1 "A" "kaput" rfl
